import Mathlib

/-!
Shallow embedding of `src/ui/html/form.js` (the Gen-UI form client):
URL parameter resolution (`getUrlParams`), form generation
(`generateForm`), schema-driven rendering (`renderForm`), and the
submit event listener (`handleSubmit`), together with the browser
semantics the code relies on (JavaScript truthiness of strings,
`FormData.entries()` over the live controls).

Conventions of the embedding:
- JavaScript strings that may be `undefined`/`null` are `Option String`;
  `a || b` on them is `jsOr` (the empty string is falsy).
- JavaScript objects used as string-keyed records are association lists;
  property assignment `o[k] = v` is `jsSet` (update in place, else append),
  matching insertion-order semantics of JS objects.
- Thrown `TypeError`s are `Except.error` with a fixed message string.
- Network calls are modelled by oracle functions passed as arguments; the
  list of issued requests is returned alongside the outcome.
-/

namespace GenUiForm

/-- JavaScript truthiness of a possibly-absent string: `undefined`, `null`
and `""` are falsy, every other string is truthy. -/
def jsTruthy : Option String → Bool
  | none => false
  | some s => if s = "" then false else true

/-- JavaScript `a || b` on possibly-absent strings. -/
def jsOr (a b : Option String) : Option String :=
  if jsTruthy a then a else b

/-- JavaScript `a || d` where the fallback `d` is a plain string. -/
def jsOrStr (a : Option String) (d : String) : String :=
  match a with
  | none => d
  | some s => if s = "" then d else s

/-- JavaScript `a || null` on a possibly-absent string. -/
def jsOrNull (a : Option String) : Option String :=
  if jsTruthy a then a else none

/-- First value for a key in a string-keyed association list (the semantics
of `URLSearchParams.get` and of property lookup on the modelled objects). -/
def assocLookup {α : Type} : List (String × α) → String → Option α
  | [], _ => none
  | (k, v) :: rest, key => if k = key then some v else assocLookup rest key

/-- JavaScript property assignment `o[key] = v` on an object modelled as an
association list: update the existing entry in place, else append. -/
def jsSet {α : Type} : List (String × α) → String → α → List (String × α)
  | [], key, v => [(key, v)]
  | (k, w) :: rest, key, v =>
    if k = key then (key, v) :: rest else (k, w) :: jsSet rest key v

/-- The page location: parsed query parameters and the path. -/
structure Location where
  search : List (String × String)
  pathname : String
deriving DecidableEq

/-- Result of `getUrlParams` (the FormRequest of the spec). -/
structure UrlParams where
  fields : String
  context : Option String
  sessionId : Option String
  isShortUrl : Bool
deriving DecidableEq

/-- The regex match `path.match(/^\/form\/([a-zA-Z0-9]+)$/)`, returning the
captured session-id segment: the path starts with `/form/` and the rest is
one or more alphanumeric characters. Stated on the character list of the
path so that it evaluates by kernel reduction. -/
def shortUrlMatch (path : String) : Option String :=
  if "/form/".data.isPrefixOf path.data then
    let seg := path.data.drop 6
    if seg ≠ [] ∧ seg.all Char.isAlphanum then some (String.mk seg) else none
  else none

/-- `getUrlParams` from `form.js`: fields and context from the query string,
sessionId from the `session_id` query parameter or the short-URL path. -/
def getUrlParams (loc : Location) : UrlParams :=
  let shortMatch := shortUrlMatch loc.pathname
  { fields := jsOrStr (assocLookup loc.search "fields") ""
    context := jsOrNull (assocLookup loc.search "context")
    sessionId := jsOr (assocLookup loc.search "session_id") shortMatch
    isShortUrl := shortMatch.isSome }

/-- A per-field UI hint object from `uiSchema` (keys `ui:widget`,
`ui:placeholder`). -/
structure UiHint where
  widget : Option String := none
  placeholder : Option String := none
deriving DecidableEq

/-- The empty UI hint object `{}` used as default when a field has no entry
in `uiSchema`. -/
def emptyUiHint : UiHint := {}

/-- A field schema entry of `schema.properties` in the payload consumed by
`renderForm`. -/
structure FieldSchema where
  title : Option String := none
  description : Option String := none
  type : Option String := none
  format : Option String := none
  enum : Option (List String) := none
deriving DecidableEq

/-- The `schema` object of the payload: JSON-Schema `properties` (an ordered
string-keyed mapping) and `required` (a list of field names). -/
structure SchemaObj where
  properties : Option (List (String × FieldSchema)) := none
  required : Option (List String) := none
deriving DecidableEq

/-- The full schema payload destructured by `renderForm`:
`{ title, description, schema, uiSchema, submitButtonText }`. -/
structure SchemaData where
  title : Option String := none
  description : Option String := none
  schema : Option SchemaObj := none
  uiSchema : Option (List (String × UiHint)) := none
  submitButtonText : Option String := none
deriving DecidableEq

/-- The kind of input control `renderForm` creates for a field. Select
options are `(value, displayText)` pairs. -/
inductive ControlKind where
  | selectControl (options : List (String × String))
  | checkbox
  | textInput
  | passwordInput
  | textareaControl (rows : Nat)
deriving DecidableEq

/-- A created input control: kind plus the `id`, `name`, `required` and
`placeholder` attributes the code sets. -/
structure Control where
  kind : ControlKind
  id : String
  name : String
  required : Bool
  placeholder : Option String := none
deriving DecidableEq

/-- One rendered form field: the label (text, required marker, `for`
attribute), optional help text, and the input control. -/
structure RenderedField where
  labelText : String
  labelRequiredMark : Bool
  forAttr : String
  helpText : Option String
  control : Control
deriving DecidableEq

/-- The DOM `type` property of a created control, as read by the submit
listener (`field.type`). -/
def Control.domType (c : Control) : String :=
  match c.kind with
  | .selectControl _ => "select-one"
  | .checkbox => "checkbox"
  | .textInput => "text"
  | .passwordInput => "password"
  | .textareaControl _ => "textarea"

/-- The loop body of `renderForm` for one `[fieldName, fieldSchema]` entry,
given the schema's `required` list and the field's resolved UI hint object. -/
def renderField (required : List String) (uiField : UiHint) (fieldName : String)
    (fs : FieldSchema) : RenderedField :=
  let labelText := jsOrStr fs.title fieldName
  let mark := required.contains fieldName
  let help := if jsTruthy fs.description then fs.description else none
  let widget := jsOr uiField.widget (jsOr fs.format fs.type)
  let control : Control :=
    match fs.enum with
    | some vs =>
      { kind := .selectControl (("", "Select " ++ jsOrStr fs.title fieldName)
          :: vs.map (fun v => (v, v)))
        id := fieldName, name := fieldName
        required := required.contains fieldName, placeholder := none }
    | none =>
      if fs.type = some "boolean" then
        { kind := .checkbox, id := fieldName, name := fieldName
          required := false, placeholder := none }
      else if fs.type = some "integer" ∨ fs.type = some "number" then
        { kind := .textInput, id := fieldName, name := fieldName
          required := required.contains fieldName
          placeholder :=
            if ¬ jsTruthy uiField.placeholder = true ∧ fs.type = some "integer" then
              some "Enter a number"
            else none }
      else if widget = some "password" then
        { kind := .passwordInput, id := fieldName, name := fieldName
          required := required.contains fieldName, placeholder := none }
      else if widget = some "textarea" then
        { kind := .textareaControl 4, id := fieldName, name := fieldName
          required := required.contains fieldName, placeholder := none }
      else
        { kind := .textInput, id := fieldName, name := fieldName
          required := required.contains fieldName
          placeholder :=
            if jsTruthy uiField.placeholder then uiField.placeholder else none }
  { labelText := labelText, labelRequiredMark := mark, forAttr := fieldName
    helpText := help, control := control }

/-- The `renderForm` loop over `Object.entries(properties)`. Accessing
`uiSchema[fieldName]` when `uiSchema` is `undefined` throws a `TypeError`,
modelled as `Except.error`; this happens before any field is produced. -/
def renderFields (required : List String) (uiSchema : Option (List (String × UiHint))) :
    List (String × FieldSchema) → Except String (List RenderedField)
  | [] => .ok []
  | (fieldName, fs) :: rest =>
    match uiSchema with
    | none => .error "Cannot read properties of undefined"
    | some m =>
      match renderFields required uiSchema rest with
      | .error e => .error e
      | .ok rs =>
        .ok (renderField required ((assocLookup m fieldName).getD emptyUiHint) fieldName fs :: rs)

/-- The rendered page produced by `renderForm`: header texts and the list of
rendered fields, in `properties` iteration order. -/
structure RenderResult where
  formTitle : Option String
  formDescription : String
  submitText : String
  fields : List RenderedField
deriving DecidableEq

/-- `renderForm` from `form.js`: destructure the payload, default
`schema.properties` to `{}` and `schema.required` to `[]`, and build one
labeled control per property entry. A missing `schema` or a missing
`uiSchema` (with at least one property) throws, modelled as `Except.error`. -/
def renderForm (sd : SchemaData) : Except String RenderResult :=
  match sd.schema with
  | none => .error "Cannot read properties of undefined"
  | some schemaObj =>
    let properties := schemaObj.properties.getD []
    let required := schemaObj.required.getD []
    match renderFields required sd.uiSchema properties with
    | .error e => .error e
    | .ok fs =>
      .ok { formTitle := sd.title
            formDescription := jsOrStr sd.description ""
            submitText := jsOrStr sd.submitButtonText "Submit"
            fields := fs }

/-- Projection used by concrete counterexamples: the list of controls of a
successfully rendered schema payload. -/
def renderedControls (sd : SchemaData) : Option (List Control) :=
  match renderForm sd with
  | .error _ => none
  | .ok r => some (r.fields.map (fun f => f.control))

/-- The live state of one rendered control at submit time: the text (or
selected option value) and, for checkboxes, the checked flag. -/
structure ControlState where
  value : String
  checked : Bool
deriving DecidableEq

/-- A value stored in the submission payload object. `parsedNumber raw`
stands for the JavaScript number `parseFloat(raw)`; its numeric value is
never inspected by this code, only which branch produced it matters. -/
inductive SubmitValue where
  | str (s : String)
  | boolean (b : Bool)
  | parsedNumber (raw : String)
  | null
deriving DecidableEq

/-- `new FormData(form).entries()` over the live controls, in DOM order: an
unchecked checkbox contributes no entry; a checked one contributes its value
attribute (`"on"` by default); every other control contributes its value. -/
def formDataEntries : List (Control × ControlState) → List (String × String)
  | [] => []
  | (c, st) :: rest =>
    match c.kind with
    | .checkbox =>
      (if st.checked then [(c.name, "on")] else []) ++ formDataEntries rest
    | _ => (c.name, st.value) :: formDataEntries rest

/-- `form.querySelector("[name=key]")`: the first control whose `name`
attribute is `key`. -/
def findByName (ctrls : List (Control × ControlState)) (key : String) :
    Option (Control × ControlState) :=
  ctrls.find? (fun p => p.1.name = key)

/-- The `for (const [key, value] of formData.entries())` loop of the submit
listener: build the `data` object, dispatching on the DOM `type` of the
control found by name (`checkbox` → checked flag, `number` → parsed number
or null, otherwise the raw entry value). A missing control would throw. -/
def submitEntriesLoop (ctrls : List (Control × ControlState)) :
    List (String × String) → List (String × SubmitValue) →
    Except String (List (String × SubmitValue))
  | [], data => .ok data
  | (key, value) :: rest, data =>
    match findByName ctrls key with
    | none => .error "Cannot read properties of null"
    | some (field, st) =>
      let v : SubmitValue :=
        if field.domType = "checkbox" then .boolean st.checked
        else if field.domType = "number" then
          (if st.value = "" then .null else .parsedNumber st.value)
        else .str value
      submitEntriesLoop ctrls rest (jsSet data key v)

/-- The submit event listener: serialize the live controls through
`FormData`, then inject `_session_id` from `getUrlParams()` when a truthy
sessionId is present. Returns the payload posted to `/api/submit`. -/
def handleSubmit (ctrls : List (Control × ControlState)) (loc : Location) :
    Except String (List (String × SubmitValue)) :=
  match submitEntriesLoop ctrls (formDataEntries ctrls) [] with
  | .error e => .error e
  | .ok data =>
    let params := getUrlParams loc
    match params.sessionId with
    | some sid =>
      if sid = "" then .ok data
      else .ok (jsSet data "_session_id" (SubmitValue.str sid))
    | none => .ok data

/-- A network request issued by `generateForm`. -/
inductive Request where
  | formConfig (sessionId : String)
  | schemaGen (fields : String) (context : Option String)
deriving DecidableEq

/-- Parsed response of `/api/form-config/{sessionId}`: HTTP ok flag plus the
JSON body fields read by the code. -/
structure ConfigResponse where
  ok : Bool
  success : Bool
  error : Option String := none
  fields : List String := []
  context : Option String := none
  schema : Option SchemaData := none

/-- Parsed response of `/api/schema`: HTTP ok flag, the schema payload body,
and the `error` field read from the body on failure. -/
structure SchemaResp where
  ok : Bool
  data : SchemaData
  error : Option String := none

/-- The page outcome of a `generateForm` run: either the form was rendered,
or `showError` was called with a message. -/
inductive ViewOutcome where
  | rendered (r : RenderResult)
  | errorShown (message : String)
deriving DecidableEq

/-- `renderForm(data)` wrapped in the `try`/`catch` of `generateForm`: a
throw inside rendering surfaces as the generating-error message. -/
def renderOutcome (d : SchemaData) : ViewOutcome :=
  match renderForm d with
  | .ok r => .rendered r
  | .error e => .errorShown ("Error generating form: " ++ e)

/-- The part of `generateForm` after short-URL resolution: fail with the
fixed missing-fields message when `fields` is empty, otherwise use the
pre-generated schema if present, else call `/api/schema` (context included
only when truthy) and render the response. -/
def generateFormRest (fields : String) (ctx : Option String)
    (preGen : Option SchemaData) (reqs : List Request)
    (schO : String → Option String → SchemaResp) : ViewOutcome × List Request :=
  if fields = "" then
    (.errorShown "No fields specified. Add ?fields=field1,field2 to the URL.", reqs)
  else
    match preGen with
    | some d => (renderOutcome d, reqs)
    | none =>
      let ctxParam := if jsTruthy ctx then ctx else none
      let resp := schO fields ctxParam
      let reqs2 := reqs ++ [Request.schemaGen fields ctxParam]
      if resp.ok then (renderOutcome resp.data, reqs2)
      else
        (.errorShown ("Error generating form: " ++ jsOrStr resp.error "Failed to generate form"),
         reqs2)

/-- `generateForm` from `form.js`. Network calls go through the oracles
`cfgO` (`/api/form-config/{sid}`) and `schO` (`/api/schema`); the returned
list records the requests issued. On a short URL with a truthy sessionId the
config is fetched first; a failed lookup shows its error; a successful one
overwrites `fields`/`context` and may carry a pre-generated schema. -/
def generateForm (loc : Location) (cfgO : String → ConfigResponse)
    (schO : String → Option String → SchemaResp) : ViewOutcome × List Request :=
  let params := getUrlParams loc
  match params.isShortUrl, params.sessionId with
  | true, some sid =>
    if sid = "" then
      generateFormRest params.fields params.context none [] schO
    else
      let cfg := cfgO sid
      if cfg.ok && cfg.success then
        generateFormRest (String.intercalate "," cfg.fields) cfg.context cfg.schema
          [Request.formConfig sid] schO
      else
        (.errorShown ("Error: " ++ jsOrStr cfg.error "Form config not found"),
         [Request.formConfig sid])
  | _, _ =>
    generateFormRest params.fields params.context none [] schO

/-! Concrete page locations, schema payloads and controls used by the
witnesses and counterexamples below. -/

/-- A plain page load: no query parameters, path `/`. -/
def loc0 : Location := { search := [], pathname := "/" }

/-- A short-URL page load: path `/form/abc123`. -/
def locShort : Location := { search := [], pathname := "/form/abc123" }

/-- Schema payload with a single integer field `age` and an empty uiSchema. -/
def sdInt : SchemaData :=
  { title := some "T"
    schema := some { properties := some [("age", { type := some "integer" })], required := some [] }
    uiSchema := some [] }

/-- The control `renderForm` produces for the `age` field of `sdInt`. -/
def ageControl : Control :=
  { kind := .textInput, id := "age", name := "age", required := false
    placeholder := some "Enter a number" }

/-- Schema payload with a single boolean field `subscribe`. -/
def sdBool : SchemaData :=
  { schema := some { properties := some [("subscribe", { type := some "boolean" })]
                     required := some [] }
    uiSchema := some [] }

/-- The control `renderForm` produces for the `subscribe` field of `sdBool`. -/
def subscribeControl : Control :=
  { kind := .checkbox, id := "subscribe", name := "subscribe", required := false }

/-- Schema payload with a string field `secret` whose format is `password`
but whose UI hint selects the `textarea` widget. -/
def sdPwd : SchemaData :=
  { schema := some { properties := some [("secret", { type := some "string", format := some "password" })]
                     required := some [] }
    uiSchema := some [("secret", { widget := some "textarea" })] }

/-- The control `renderForm` produces for the `secret` field of `sdPwd`. -/
def secretControl : Control :=
  { kind := .textareaControl 4, id := "secret", name := "secret", required := false }

/-- Schema payload with a single plain field literally named `_session_id`. -/
def sdSess : SchemaData :=
  { schema := some { properties := some [("_session_id", {})], required := some [] }
    uiSchema := some [] }

/-- The control `renderForm` produces for the `_session_id` field of `sdSess`. -/
def sessControl : Control :=
  { kind := .textInput, id := "_session_id", name := "_session_id", required := false }

/-- Schema payload with an integer-typed field `n` that also has an enum and
no placeholder hint. -/
def sdEnumInt : SchemaData :=
  { schema := some { properties := some [("n", { type := some "integer", enum := some ["1", "2"] })]
                     required := some [] }
    uiSchema := some [] }

/-- The control `renderForm` produces for the `n` field of `sdEnumInt`. -/
def enumIntControl : Control :=
  { kind := .selectControl [("", "Select n"), ("1", "1"), ("2", "2")]
    id := "n", name := "n", required := false }

/-- Schema payload used by witnesses: three fields covering the text,
boolean and enum branches, with `name` and `subscribe` required. -/
def sdMixedProps : List (String × FieldSchema) :=
  [("name", { title := some "Name" }),
   ("subscribe", { type := some "boolean" }),
   ("color", { enum := some ["red", "blue"] })]

def sdMixed : SchemaData :=
  { title := some "Profile"
    schema := some { properties := some sdMixedProps, required := some ["name", "subscribe"] }
    uiSchema := some [] }

/-- Config-lookup oracle that always fails. -/
def cfgNone : String → ConfigResponse := fun _ => { ok := false, success := false }

/-- Schema-generation oracle that always fails. -/
def schNone : String → Option String → SchemaResp := fun _ _ => { ok := false, data := {} }

/-- Config-lookup oracle returning a successful lookup with a pre-generated
schema (`sdInt`) for every session id. -/
def cfgPre : String → ConfigResponse :=
  fun _ => { ok := true, success := true, fields := ["age"], context := some "signup"
             schema := some sdInt }

/-! Helper lemmas about the embedded operations. -/

lemma assocLookup_jsSet_self {α : Type} (m : List (String × α)) (key : String) (v : α) :
    assocLookup (jsSet m key v) key = some v := by
  induction m with
  | nil => simp [jsSet, assocLookup]
  | cons p rest ih =>
    obtain ⟨k, w⟩ := p
    by_cases hk : k = key
    · simp [jsSet, hk, assocLookup]
    · simp [jsSet, hk, assocLookup, ih]

lemma assocLookup_jsSet_ne {α : Type} (m : List (String × α)) (key k : String) (v : α)
    (h : key ≠ k) : assocLookup (jsSet m key v) k = assocLookup m k := by
  induction m with
  | nil => simp [jsSet, assocLookup, h]
  | cons p rest ih =>
    obtain ⟨k0, w⟩ := p
    by_cases hk : k0 = key
    · subst hk
      simp [jsSet, assocLookup, h]
    · simp [jsSet, hk, assocLookup, ih]

lemma renderFields_eq_map (req : List String) (u : List (String × UiHint)) :
    ∀ props : List (String × FieldSchema),
      renderFields req (some u) props =
        .ok (props.map (fun p =>
          renderField req ((assocLookup u p.1).getD emptyUiHint) p.1 p.2)) := by
  intro props
  induction props with
  | nil => rfl
  | cons p rest ih =>
    obtain ⟨name, fs⟩ := p
    simp [renderFields, ih]

lemma renderField_labelText (req : List String) (u : UiHint) (name : String) (fs : FieldSchema) :
    (renderField req u name fs).labelText = jsOrStr fs.title name := rfl

lemma renderField_control_name (req : List String) (u : UiHint) (name : String)
    (fs : FieldSchema) : (renderField req u name fs).control.name = name := by
  obtain ⟨ti, de, ty, fo, en⟩ := fs
  cases en with
  | none => simp only [renderField]; split_ifs <;> rfl
  | some vs => rfl

lemma renderField_required_iff (req : List String) (u : UiHint) (name : String)
    (fs : FieldSchema) :
    ((renderField req u name fs).control.required = true ↔
      (name ∈ req ∧ (renderField req u name fs).control.kind ≠ ControlKind.checkbox)) := by
  obtain ⟨ti, de, ty, fo, en⟩ := fs
  cases en with
  | none => simp only [renderField]; split_ifs <;> simp_all
  | some vs => simp only [renderField]; simp_all

lemma renderField_enum_kind (req : List String) (u : UiHint) (name : String)
    (fs : FieldSchema) (vs : List String) (h : fs.enum = some vs) :
    (renderField req u name fs).control.kind =
      ControlKind.selectControl
        (("", "Select " ++ jsOrStr fs.title name) :: vs.map (fun v => (v, v))) := by
  obtain ⟨ti, de, ty, fo, en⟩ := fs
  simp only [] at h
  subst h
  rfl

lemma renderForm_ok (sd : SchemaData) (so : SchemaObj) (u : List (String × UiHint))
    (h1 : sd.schema = some so) (h2 : sd.uiSchema = some u) :
    renderForm sd =
      .ok { formTitle := sd.title
            formDescription := jsOrStr sd.description ""
            submitText := jsOrStr sd.submitButtonText "Submit"
            fields := (so.properties.getD []).map (fun p =>
              renderField (so.required.getD []) ((assocLookup u p.1).getD emptyUiHint) p.1 p.2) } := by
  simp [renderForm, h1, h2, renderFields_eq_map]

lemma renderForm_fields_get (sd : SchemaData) (so : SchemaObj)
    (props : List (String × FieldSchema)) (u : List (String × UiHint))
    (h1 : sd.schema = some so) (h2 : so.properties = some props) (h3 : sd.uiSchema = some u)
    {i : Nat} {name : String} {fs : FieldSchema} (hget : props[i]? = some (name, fs)) :
    ∃ result : RenderResult, renderForm sd = Except.ok result ∧
      result.fields.length = props.length ∧
      result.fields[i]? = some (renderField (so.required.getD [])
        ((assocLookup u name).getD emptyUiHint) name fs) := by
  refine ⟨_, renderForm_ok sd so u h1 h3, ?_, ?_⟩
  · simp [h2]
  · simp [h2, List.getElem?_map, hget]

/-- C3: for every schema payload whose `required` list only names existing
properties, `renderForm` succeeds and produces exactly one labeled control
per entry of `schema.properties`, in iteration order; a control carries the
`required` attribute exactly when its field name is listed in `required`
and it is not the boolean checkbox control, which is never marked required. -/
theorem C3_one_labeled_control_per_property :
    ∀ (sd : SchemaData) (so : SchemaObj) (props : List (String × FieldSchema))
      (req : List String) (u : List (String × UiHint)),
      sd.schema = some so → so.properties = some props → so.required = some req →
      sd.uiSchema = some u →
      (∀ r ∈ req, r ∈ props.map Prod.fst) →
      ∃ result : RenderResult, renderForm sd = Except.ok result ∧
        result.fields.length = props.length ∧
        ∀ (i : Nat) (name : String) (fs : FieldSchema), props[i]? = some (name, fs) →
          ∃ rf : RenderedField, result.fields[i]? = some rf ∧
            rf.labelText = jsOrStr fs.title name ∧
            rf.forAttr = name ∧
            rf.control.name = name ∧
            (rf.control.required = true ↔
              (name ∈ req ∧ rf.control.kind ≠ ControlKind.checkbox)) := by
  intro sd so props req u h1 h2 h3 h4 _hsub
  refine ⟨_, renderForm_ok sd so u h1 h4, ?_, ?_⟩
  · simp [h2]
  · intro i name fs hget
    refine ⟨renderField (so.required.getD []) ((assocLookup u name).getD emptyUiHint) name fs,
      ?_, ?_, rfl, renderField_control_name _ _ _ _, ?_⟩
    · simp [h2, List.getElem?_map, hget]
    · exact renderField_labelText _ _ _ _
    · rw [h3]
      exact renderField_required_iff _ _ _ _

/-- Witness for C3 at the concrete payload `sdMixed`. -/
theorem C3_witness :
    (∀ r ∈ ["name", "subscribe"], r ∈ sdMixedProps.map Prod.fst) ∧
    (∃ result : RenderResult, renderForm sdMixed = Except.ok result ∧
      result.fields.length = sdMixedProps.length ∧
      ∀ (i : Nat) (name : String) (fs : FieldSchema), sdMixedProps[i]? = some (name, fs) →
        ∃ rf : RenderedField, result.fields[i]? = some rf ∧
          rf.labelText = jsOrStr fs.title name ∧
          rf.forAttr = name ∧
          rf.control.name = name ∧
          (rf.control.required = true ↔
            (name ∈ ["name", "subscribe"] ∧ rf.control.kind ≠ ControlKind.checkbox))) :=
  ⟨by decide,
   C3_one_labeled_control_per_property sdMixed _ sdMixedProps ["name", "subscribe"] []
     rfl rfl rfl rfl (by decide)⟩

/-- C6: a field with an `enum` of values renders as a selection control
whose options are a blank-valued placeholder labeled with `Select` plus the
field title (or name), followed by one option per enum value with value and
display text identical; the option count is the enum length plus one. -/
theorem C6_enum_select_options :
    ∀ (sd : SchemaData) (so : SchemaObj) (props : List (String × FieldSchema))
      (u : List (String × UiHint)) (i : Nat) (name : String) (fs : FieldSchema)
      (vs : List String),
      sd.schema = some so → so.properties = some props → sd.uiSchema = some u →
      props[i]? = some (name, fs) → fs.enum = some vs →
      ∃ result : RenderResult, ∃ rf : RenderedField, renderForm sd = Except.ok result ∧ result.fields[i]? = some rf ∧
        rf.control.kind = ControlKind.selectControl
          (("", "Select " ++ jsOrStr fs.title name) :: vs.map (fun v => (v, v))) ∧
        ∀ opts, rf.control.kind = ControlKind.selectControl opts →
          opts.length = vs.length + 1 := by
  intro sd so props u i name fs vs h1 h2 h3 hget henum
  obtain ⟨result, hok, _hlen, hfield⟩ := renderForm_fields_get sd so props u h1 h2 h3 hget
  refine ⟨result, _, hok, hfield, ?_, ?_⟩
  · exact renderField_enum_kind _ _ _ _ _ henum
  · intro opts hopts
    rw [renderField_enum_kind _ _ _ _ _ henum] at hopts
    injection hopts with h
    subst h
    simp

/-- Witness for C6 at the `color` field of `sdMixed`. -/
theorem C6_witness :
    sdMixedProps[2]? = some ("color", { enum := some ["red", "blue"] }) ∧
    (∃ result : RenderResult, ∃ rf : RenderedField, renderForm sdMixed = Except.ok result ∧ result.fields[2]? = some rf ∧
      rf.control.kind = ControlKind.selectControl
        (("", "Select " ++ jsOrStr (none : Option String) "color")
          :: ["red", "blue"].map (fun v => (v, v))) ∧
      ∀ opts, rf.control.kind = ControlKind.selectControl opts →
        opts.length = ["red", "blue"].length + 1) :=
  ⟨by decide,
   C6_enum_select_options sdMixed _ sdMixedProps [] 2 "color" { enum := some ["red", "blue"] }
     ["red", "blue"] rfl rfl rfl (by decide) rfl⟩

/-- C4 counterexample: the claim states that a `format` of `"password"`
alone suffices for a masked control, but for the `secret` field of `sdPwd`
(no enum, type `string`, format `password`, UI-hint widget `textarea`) the
renderer produces a textarea, not a password input: the UI-hint widget
shadows the format in the `widget` fallback chain. -/
theorem C4_password_rule_counterexample :
    renderedControls sdPwd = some [secretControl] ∧
    secretControl.kind = ControlKind.textareaControl 4 ∧
    secretControl.kind ≠ ControlKind.passwordInput :=
  ⟨rfl, rfl, by decide⟩

/-- C4 amended: for a field with no enum whose type is neither boolean,
integer nor number, the renderer produces a masked (password) control when
the effective widget — the first truthy value among the UI-hint widget, the
format and the type — equals `"password"`; this test precedes the textarea
test. -/
theorem C4_password_rule_amended :
    ∀ (req : List String) (uiField : UiHint) (name : String) (fs : FieldSchema),
      fs.enum = none → fs.type ≠ some "boolean" → fs.type ≠ some "integer" →
      fs.type ≠ some "number" →
      jsOr uiField.widget (jsOr fs.format fs.type) = some "password" →
      (renderField req uiField name fs).control.kind = ControlKind.passwordInput := by
  intro req uiField name fs he hb hi hn hw
  obtain ⟨ti, de, ty, fo, en⟩ := fs
  simp only [] at he hb hi hn hw
  subst he
  simp only [renderField]
  rw [if_neg hb, if_neg (by tauto), if_pos hw]

/-- Witness for C4 at a field whose UI hint selects the password widget. -/
theorem C4_witness :
    jsOr (some "password") (jsOr none (some "string")) = some "password" ∧
    (renderField [] { widget := some "password" } "pw"
        { type := some "string" }).control.kind = ControlKind.passwordInput :=
  ⟨by decide,
   C4_password_rule_amended [] { widget := some "password" } "pw" { type := some "string" }
     rfl (by decide) (by decide) (by decide) (by decide)⟩

/-- C9 counterexample: the claim quantifies over every integer-typed field
without a placeholder hint, but an integer field that also carries an
`enum` renders as a selection control with no placeholder at all, because
the enum test precedes the numeric test. -/
theorem C9_integer_placeholder_counterexample :
    renderedControls sdEnumInt = some [enumIntControl] ∧
    enumIntControl.placeholder = none ∧
    enumIntControl.placeholder ≠ some "Enter a number" :=
  ⟨rfl, rfl, by decide⟩

/-- C9 amended: for a field with no enum, of type `integer`, with no truthy
placeholder UI hint, the rendered control's placeholder is exactly
`Enter a number`; for a field of type `number` with no truthy placeholder
hint, no default placeholder is injected. -/
theorem C9_integer_placeholder_amended :
    ∀ (req : List String) (uiField : UiHint) (name : String) (fs : FieldSchema),
      jsTruthy uiField.placeholder = false →
      ((fs.enum = none → fs.type = some "integer" →
          (renderField req uiField name fs).control.placeholder = some "Enter a number") ∧
       (fs.type = some "number" →
          (renderField req uiField name fs).control.placeholder = none)) := by
  intro req uiField name fs hp
  obtain ⟨ti, de, ty, fo, en⟩ := fs
  constructor
  · intro he hty
    simp only [] at he hty
    subst he
    subst hty
    simp [renderField, hp]
  · intro hty
    simp only [] at hty
    subst hty
    cases en with
    | none => simp [renderField, hp]
    | some vs => rfl

/-- Witness for C9 at an integer field and a number field with empty UI
hints. -/
theorem C9_witness :
    jsTruthy emptyUiHint.placeholder = false ∧
    (renderField [] emptyUiHint "age" { type := some "integer" }).control.placeholder
      = some "Enter a number" ∧
    (renderField [] emptyUiHint "score" { type := some "number" }).control.placeholder
      = none :=
  ⟨rfl,
   (C9_integer_placeholder_amended [] emptyUiHint "age" { type := some "integer" } rfl).1 rfl rfl,
   (C9_integer_placeholder_amended [] emptyUiHint "score" { type := some "number" } rfl).2 rfl⟩

/-- C10: `renderForm` is partial in `uiSchema`: with a non-empty
`schema.properties` and no `uiSchema` key it throws (the per-field UI hint
is read off `undefined`), while a missing `schema.properties` or
`schema.required` is handled safely, behaving as the empty mapping and the
empty list respectively. -/
theorem C10_uiSchema_partiality :
    (∀ (sd : SchemaData) (so : SchemaObj) (props : List (String × FieldSchema)),
        sd.schema = some so → so.properties = some props → props ≠ [] →
        sd.uiSchema = none →
        renderForm sd = .error "Cannot read properties of undefined") ∧
    (∀ (sd : SchemaData) (so : SchemaObj),
        sd.schema = some so → so.properties = none →
        renderForm sd = renderForm { sd with schema := some { so with properties := some [] } } ∧
        ∃ r : RenderResult, renderForm sd = Except.ok r ∧ r.fields = []) ∧
    (∀ (sd : SchemaData) (so : SchemaObj),
        sd.schema = some so → so.required = none →
        renderForm sd = renderForm { sd with schema := some { so with required := some [] } }) := by
  refine ⟨?_, ?_, ?_⟩
  · intro sd so props h1 h2 hne h4
    cases props with
    | nil => exact absurd rfl hne
    | cons p rest =>
      obtain ⟨name, fs⟩ := p
      simp [renderForm, h1, h2, h4, renderFields]
  · intro sd so h1 h2
    refine ⟨?_, ?_⟩
    · simp [renderForm, h1, h2, renderFields]
    · refine ⟨{ formTitle := sd.title, formDescription := jsOrStr sd.description ""
                submitText := jsOrStr sd.submitButtonText "Submit", fields := [] }, ?_, rfl⟩
      simp [renderForm, h1, h2, renderFields]
  · intro sd so h1 h2
    simp [renderForm, h1, h2]

/-- Witness for C10: a payload with one property and no `uiSchema` throws;
payloads without `properties` or without `required` render safely. -/
theorem C10_witness :
    ((sdInt.schema.getD {}).properties.getD [] ≠ []) ∧
    renderForm { sdInt with uiSchema := none } = .error "Cannot read properties of undefined" ∧
    renderForm { schema := some {} }
      = renderForm { schema := some { properties := some [] } } ∧
    renderForm { schema := some { properties := some [] } }
      = renderForm { schema := some { properties := some [], required := some [] } } :=
  ⟨by decide,
   C10_uiSchema_partiality.1 { sdInt with uiSchema := none } _ [("age", { type := some "integer" })]
     rfl rfl (by decide) rfl,
   (C10_uiSchema_partiality.2.1 { schema := some {} } {} rfl rfl).1,
   C10_uiSchema_partiality.2.2 { schema := some { properties := some [] } }
     { properties := some [] } rfl rfl⟩

/-- C1 evaluated on the code: the renderer creates integer and number
fields with DOM type `text`, but the submit listener only parses controls
whose DOM type is `number`, so a rendered numeric field always submits its
raw text — the empty control yields the empty string, not `null`, and a
filled control yields the unparsed string, never a number. -/
theorem C1_integer_field_submits_raw_string :
    renderedControls sdInt = some [ageControl] ∧
    ageControl.domType = "text" ∧
    handleSubmit [(ageControl, { value := "", checked := false })] loc0
      = .ok [("age", SubmitValue.str "")] ∧
    handleSubmit [(ageControl, { value := "42", checked := false })] loc0
      = .ok [("age", SubmitValue.str "42")] :=
  ⟨rfl, rfl, rfl, rfl⟩

/-- C2 evaluated on the code: an unchecked checkbox contributes no entry to
`FormData.entries()`, so the submit listener never reaches its
`field.checked` branch for it and the field key is entirely absent from the
payload instead of being `false`; the same toggle checked yields `true`. -/
theorem C2_unchecked_toggle_absent_from_payload :
    renderedControls sdBool = some [subscribeControl] ∧
    formDataEntries [(subscribeControl, { value := "on", checked := false })] = [] ∧
    handleSubmit [(subscribeControl, { value := "on", checked := false })] loc0 = .ok [] ∧
    handleSubmit [(subscribeControl, { value := "on", checked := true })] loc0
      = .ok [("subscribe", SubmitValue.boolean true)] :=
  ⟨rfl, rfl, rfl, rfl⟩

lemma formDataEntries_name_mem :
    ∀ (ctrls : List (Control × ControlState)) (e : String × String),
      e ∈ formDataEntries ctrls → ∃ p ∈ ctrls, p.1.name = e.1 := by
  intro ctrls
  induction ctrls with
  | nil => simp [formDataEntries]
  | cons c rest ih =>
    intro e he
    obtain ⟨ctrl, st⟩ := c
    by_cases hk : ctrl.kind = ControlKind.checkbox
    · rw [show formDataEntries ((ctrl, st) :: rest)
          = (if st.checked then [(ctrl.name, "on")] else []) ++ formDataEntries rest by
            simp [formDataEntries, hk]] at he
      rcases List.mem_append.mp he with hl | hr
      · split at hl
        · rcases List.mem_singleton.mp hl with rfl
          exact ⟨(ctrl, st), List.mem_cons_self .., rfl⟩
        · cases hl
      · obtain ⟨p, hp, hn⟩ := ih e hr
        exact ⟨p, List.mem_cons_of_mem _ hp, hn⟩
    · have hrw : formDataEntries ((ctrl, st) :: rest)
          = (ctrl.name, st.value) :: formDataEntries rest := by
        cases hck : ctrl.kind <;> simp_all [formDataEntries]
      rw [hrw] at he
      rcases List.mem_cons.mp he with rfl | hr
      · exact ⟨(ctrl, st), List.mem_cons_self .., rfl⟩
      · obtain ⟨p, hp, hn⟩ := ih e hr
        exact ⟨p, List.mem_cons_of_mem _ hp, hn⟩

lemma submitEntriesLoop_lookup_none (ctrls : List (Control × ControlState)) (key : String) :
    ∀ (entries : List (String × String)) (data res : List (String × SubmitValue)),
      (∀ e ∈ entries, e.1 ≠ key) → assocLookup data key = none →
      submitEntriesLoop ctrls entries data = .ok res → assocLookup res key = none := by
  intro entries
  induction entries with
  | nil =>
    intro data res _ hd hs
    injection hs with h
    rw [← h]
    exact hd
  | cons e rest ih =>
    intro data res h hd hs
    obtain ⟨k0, v0⟩ := e
    rw [show submitEntriesLoop ctrls ((k0, v0) :: rest) data
        = match findByName ctrls k0 with
          | none => .error "Cannot read properties of null"
          | some (field, st) =>
            submitEntriesLoop ctrls rest (jsSet data k0
              (if field.domType = "checkbox" then .boolean st.checked
               else if field.domType = "number" then
                 (if st.value = "" then .null else .parsedNumber st.value)
               else .str v0)) from rfl] at hs
    cases hfind : findByName ctrls k0 with
    | none => rw [hfind] at hs; cases hs
    | some p =>
      obtain ⟨field, st⟩ := p
      rw [hfind] at hs
      refine ih _ res (fun e he => h e (List.mem_cons_of_mem _ he)) ?_ hs
      rw [assocLookup_jsSet_ne _ _ _ _ (h (k0, v0) (List.mem_cons_self ..))]
      exact hd

/-- C5 counterexample: a form whose schema has a field literally named
`_session_id` submits that key even when no sessionId is carried by the
page, so the key is not entirely absent in every sessionless submit. -/
theorem C5_session_id_counterexample :
    (getUrlParams loc0).sessionId = none ∧
    renderedControls sdSess = some [sessControl] ∧
    handleSubmit [(sessControl, { value := "x", checked := false })] loc0
      = .ok [("_session_id", SubmitValue.str "x")] :=
  ⟨rfl, rfl, rfl⟩

/-- C5 amended: on every successful submit, if the page carries a (truthy)
sessionId the payload maps `_session_id` to exactly that sessionId; if no
sessionId is carried, no `_session_id` key is injected, so the key is
absent whenever no form control itself is named `_session_id`. -/
theorem C5_session_id_amended :
    ∀ (ctrls : List (Control × ControlState)) (loc : Location)
      (data : List (String × SubmitValue)),
      handleSubmit ctrls loc = .ok data →
      ((∀ sid : String, (getUrlParams loc).sessionId = some sid → sid ≠ "" →
          assocLookup data "_session_id" = some (SubmitValue.str sid)) ∧
       (jsTruthy (getUrlParams loc).sessionId = false →
          (∀ p ∈ ctrls, p.1.name ≠ "_session_id") →
          assocLookup data "_session_id" = none)) := by
  intro ctrls loc data hsub
  rw [show handleSubmit ctrls loc
      = match submitEntriesLoop ctrls (formDataEntries ctrls) [] with
        | .error e => .error e
        | .ok d =>
          match (getUrlParams loc).sessionId with
          | some sid =>
            if sid = "" then .ok d
            else .ok (jsSet d "_session_id" (SubmitValue.str sid))
          | none => .ok d from rfl] at hsub
  cases hloop : submitEntriesLoop ctrls (formDataEntries ctrls) [] with
  | error e => rw [hloop] at hsub; cases hsub
  | ok d =>
    rw [hloop] at hsub
    constructor
    · intro sid hsid hne
      rw [hsid] at hsub
      dsimp only at hsub
      rw [if_neg hne] at hsub
      injection hsub with h
      rw [← h]
      exact assocLookup_jsSet_self ..
    · intro htruthy hnames
      have hdata : data = d := by
        cases hsid : (getUrlParams loc).sessionId with
        | none =>
          rw [hsid] at hsub
          injection hsub with h
          exact h.symm
        | some sid =>
          rw [hsid] at hsub
          rw [hsid] at htruthy
          dsimp only at hsub
          have hsempty : sid = "" := by
            by_contra hne
            simp [jsTruthy, hne] at htruthy
          rw [if_pos hsempty] at hsub
          injection hsub with h
          exact h.symm
      rw [hdata]
      refine submitEntriesLoop_lookup_none ctrls "_session_id" (formDataEntries ctrls) [] d
        ?_ rfl hloop
      intro e he
      obtain ⟨p, hp, hn⟩ := formDataEntries_name_mem ctrls e he
      rw [← hn]
      exact hnames p hp

/-- Witness for C5: a page with `?session_id=s1` injects `_session_id`;
the same form on a sessionless page leaves the key absent. -/
theorem C5_witness :
    handleSubmit [(ageControl, { value := "42", checked := false })]
        { search := [("session_id", "s1")], pathname := "/" }
      = .ok [("age", SubmitValue.str "42"), ("_session_id", SubmitValue.str "s1")] ∧
    assocLookup [("age", SubmitValue.str "42"), ("_session_id", SubmitValue.str "s1")]
        "_session_id" = some (SubmitValue.str "s1") ∧
    handleSubmit [(ageControl, { value := "42", checked := false })] loc0
      = .ok [("age", SubmitValue.str "42")] ∧
    assocLookup [("age", SubmitValue.str "42")] "_session_id" = none :=
  ⟨rfl,
   (C5_session_id_amended [(ageControl, { value := "42", checked := false })]
       { search := [("session_id", "s1")], pathname := "/" }
       [("age", SubmitValue.str "42"), ("_session_id", SubmitValue.str "s1")] rfl).1
     "s1" rfl (by decide),
   rfl,
   (C5_session_id_amended [(ageControl, { value := "42", checked := false })] loc0
       [("age", SubmitValue.str "42")] rfl).2 rfl (by decide)⟩

lemma shortUrlMatch_ne_empty {path : String} {s : String}
    (h : shortUrlMatch path = some s) : s ≠ "" := by
  unfold shortUrlMatch at h
  split at h
  · dsimp only at h
    split at h
    · rename_i hcond
      injection h with h2
      subst h2
      intro habs
      have : String.mk (path.data.drop 6) = String.mk [] := habs
      have hnil : path.data.drop 6 = [] := by injection this
      exact hcond.1 hnil
    · cases h
  · cases h

lemma getUrlParams_sessionId_truthy (loc : Location)
    (h : (getUrlParams loc).isShortUrl = true) :
    jsTruthy (getUrlParams loc).sessionId = true := by
  have hm : (shortUrlMatch loc.pathname).isSome = true := h
  cases hmatch : shortUrlMatch loc.pathname with
  | none => rw [hmatch] at hm; cases hm
  | some seg =>
    show jsTruthy (jsOr (assocLookup loc.search "session_id") (shortUrlMatch loc.pathname)) = true
    unfold jsOr
    split
    · assumption
    · rw [hmatch]
      have hne := shortUrlMatch_ne_empty hmatch
      simp [jsTruthy, hne]

lemma generateFormRest_schemaGen_mem {fields : String} {ctx : Option String}
    {preGen : Option SchemaData} {reqs : List Request}
    {schO : String → Option String → SchemaResp} {f : String} {c : Option String}
    (h : Request.schemaGen f c ∈ (generateFormRest fields ctx preGen reqs schO).2) :
    Request.schemaGen f c ∈ reqs ∨ preGen = none := by
  unfold generateFormRest at h
  split at h
  · exact Or.inl h
  · cases hp : preGen with
    | some d => rw [hp] at h; exact Or.inl h
    | none => exact Or.inr rfl

/-- C7: when the short-URL config lookup succeeds with a pre-generated
schema (and non-empty resolved fields), `generateForm` issues no
`/api/schema` request and renders exactly the provided schema; in general,
a `/api/schema` request on a short-URL load can only happen when the
config lookup yielded no schema. -/
theorem C7_pregenerated_schema_skips_fetch :
    (∀ (loc : Location) (cfgO : String → ConfigResponse)
       (schO : String → Option String → SchemaResp) (sid : String) (s : SchemaData),
       (getUrlParams loc).isShortUrl = true → (getUrlParams loc).sessionId = some sid →
       (cfgO sid).ok = true → (cfgO sid).success = true → (cfgO sid).schema = some s →
       String.intercalate "," (cfgO sid).fields ≠ "" →
       (generateForm loc cfgO schO).1 = renderOutcome s ∧
       ∀ (f : String) (c : Option String),
         Request.schemaGen f c ∉ (generateForm loc cfgO schO).2) ∧
    (∀ (loc : Location) (cfgO : String → ConfigResponse)
       (schO : String → Option String → SchemaResp) (f : String) (c : Option String)
       (sid : String),
       Request.schemaGen f c ∈ (generateForm loc cfgO schO).2 →
       (getUrlParams loc).isShortUrl = true → (getUrlParams loc).sessionId = some sid →
       (cfgO sid).schema = none) := by
  constructor
  · intro loc cfgO schO sid s h1 h2 hok hsuc hschema hfields
    have hne : sid ≠ "" := by
      have := getUrlParams_sessionId_truthy loc h1
      rw [h2] at this
      intro habs
      simp [jsTruthy, habs] at this
    have hgen : generateForm loc cfgO schO
        = (renderOutcome s, [Request.formConfig sid]) := by
      unfold generateForm
      dsimp only
      rw [h1, h2]
      dsimp only
      rw [if_neg hne]
      rw [if_pos (show ((cfgO sid).ok && (cfgO sid).success) = true by simp [hok, hsuc])]
      unfold generateFormRest
      rw [if_neg hfields, hschema]
    rw [hgen]
    exact ⟨rfl, by intro f c; simp⟩
  · intro loc cfgO schO f c sid hmem h1 h2
    have hne : sid ≠ "" := by
      have := getUrlParams_sessionId_truthy loc h1
      rw [h2] at this
      intro habs
      simp [jsTruthy, habs] at this
    unfold generateForm at hmem
    dsimp only at hmem
    rw [h1, h2] at hmem
    dsimp only at hmem
    rw [if_neg hne] at hmem
    by_cases hok : ((cfgO sid).ok && (cfgO sid).success) = true
    · rw [if_pos hok] at hmem
      rcases generateFormRest_schemaGen_mem hmem with hin | hnone
      · simp at hin
      · exact hnone
    · rw [if_neg hok] at hmem
      simp at hmem

/-- Witness for C7 at the short URL `/form/abc123` with a config oracle
carrying the pre-generated schema `sdInt`. -/
theorem C7_witness :
    (getUrlParams locShort).isShortUrl = true ∧
    (getUrlParams locShort).sessionId = some "abc123" ∧
    (cfgPre "abc123").schema = some sdInt ∧
    (generateForm locShort cfgPre schNone).1 = renderOutcome sdInt ∧
    Request.schemaGen "age" (some "signup") ∉ (generateForm locShort cfgPre schNone).2 :=
  ⟨by decide, by decide, rfl,
   (C7_pregenerated_schema_skips_fetch.1 locShort cfgPre schNone "abc123" sdInt
      (by decide) (by decide) rfl rfl rfl (by decide)).1,
   (C7_pregenerated_schema_skips_fetch.1 locShort cfgPre schNone "abc123" sdInt
      (by decide) (by decide) rfl rfl rfl (by decide)).2 "age" (some "signup")⟩

/-- C8: when the resolved fields are empty — either a non-short-form load
with an empty `fields` parameter, or a successful short-form lookup whose
fields join to the empty string — `generateForm` reports the fixed
instructional missing-fields message (no throw: the outcome is an error
view state) and never issues a schema-generation request. -/
theorem C8_empty_fields_error :
    ∀ (loc : Location) (cfgO : String → ConfigResponse)
      (schO : String → Option String → SchemaResp),
      ((((getUrlParams loc).isShortUrl = false ∨
          jsTruthy (getUrlParams loc).sessionId = false) ∧
         (getUrlParams loc).fields = "") ∨
       (∃ sid : String, (getUrlParams loc).isShortUrl = true ∧
         (getUrlParams loc).sessionId = some sid ∧
         (cfgO sid).ok = true ∧ (cfgO sid).success = true ∧
         String.intercalate "," (cfgO sid).fields = "")) →
      (generateForm loc cfgO schO).1
        = ViewOutcome.errorShown "No fields specified. Add ?fields=field1,field2 to the URL." ∧
      ∀ (f : String) (c : Option String),
        Request.schemaGen f c ∉ (generateForm loc cfgO schO).2 := by
  intro loc cfgO schO h
  rcases h with ⟨hguard, hfields⟩ | ⟨sid, h1, h2, hok, hsuc, hjoin⟩
  · have hrest : generateForm loc cfgO schO
        = generateFormRest (getUrlParams loc).fields (getUrlParams loc).context none [] schO := by
      unfold generateForm
      dsimp only
      cases hshort : (getUrlParams loc).isShortUrl with
      | false =>
        cases (getUrlParams loc).sessionId <;> rfl
      | true =>
        cases hsid : (getUrlParams loc).sessionId with
        | none => rfl
        | some sid =>
          dsimp only
          rcases hguard with hg | hg
          · rw [hshort] at hg; cases hg
          · rw [hsid] at hg
            have hempty : sid = "" := by
              by_contra hne
              simp [jsTruthy, hne] at hg
            rw [if_pos hempty]
    rw [hrest]
    unfold generateFormRest
    rw [if_pos hfields]
    exact ⟨rfl, by intro f c; simp⟩
  · have hne : sid ≠ "" := by
      have := getUrlParams_sessionId_truthy loc h1
      rw [h2] at this
      intro habs
      simp [jsTruthy, habs] at this
    have hgen : generateForm loc cfgO schO
        = (ViewOutcome.errorShown "No fields specified. Add ?fields=field1,field2 to the URL.",
           [Request.formConfig sid]) := by
      unfold generateForm
      dsimp only
      rw [h1, h2]
      dsimp only
      rw [if_neg hne]
      rw [if_pos (show ((cfgO sid).ok && (cfgO sid).success) = true by simp [hok, hsuc])]
      unfold generateFormRest
      rw [if_pos hjoin]
    rw [hgen]
    exact ⟨rfl, by intro f c; simp⟩

/-- Witness for C8 at a page load with no query parameters and no short
path: the error view shows the fixed message and no schema request is
issued. -/
theorem C8_witness :
    (getUrlParams loc0).fields = "" ∧
    (getUrlParams loc0).isShortUrl = false ∧
    (generateForm loc0 cfgNone schNone).1
      = ViewOutcome.errorShown "No fields specified. Add ?fields=field1,field2 to the URL." ∧
    Request.schemaGen "a" none ∉ (generateForm loc0 cfgNone schNone).2 :=
  ⟨rfl, rfl,
   (C8_empty_fields_error loc0 cfgNone schNone (Or.inl ⟨Or.inl rfl, rfl⟩)).1,
   (C8_empty_fields_error loc0 cfgNone schNone (Or.inl ⟨Or.inl rfl, rfl⟩)).2 "a" none⟩

end GenUiForm
